import Mathlib

/-!
# Verification of the bcn Iceberg backup/restore core

Shallow embedding of the path codec (`bcn/iceberg_utils.py`), manifest record
rewriting (`bcn/manifest_rewriter.py`), delete-file rewriting
(`bcn/delete_file_rewriter.py`), the PIT repository chain (`bcn/backup.py`,
`BackupRepository`), the backup data-file collection and artifact upload
(`bcn/backup.py`, `IcebergBackup`), and the restore pipeline control flow
(`bcn/restore.py`, `IcebergRestore`).

Python strings are modelled as lists of characters (`PyStr`); Python `dict`
records are modelled as structures/inductives whose `Option` fields stand for
possibly-absent dictionary keys; the S3 blob store is modelled as explicit
read/write/copy oracles.
-/

/-- Python strings, modelled as lists of characters. -/
abbrev PyStr := List Char

/-- Character-list form of a Lean string literal (used for concrete inputs). -/
def pstr (s : String) : PyStr := s.data

/-- Python `s.rstrip("/")`: remove all trailing slash characters. -/
def pyRstripSlash (s : PyStr) : PyStr :=
  (s.reverse.dropWhile (fun c => c = '/')).reverse

/-- Python `s.lstrip("/")`: remove all leading slash characters. -/
def pyLstripSlash (s : PyStr) : PyStr :=
  s.dropWhile (fun c => c = '/')

/-- Python `s.startswith(pre)`. -/
def pyStartswith (s pre : PyStr) : Bool :=
  pre.isPrefixOf s

namespace PathAbstractor

/-- `PathAbstractor.abstract_path` from `bcn/iceberg_utils.py` (lines 20-42):
strip trailing slashes from both arguments, and if the path starts with the
table location remove that prefix and any leading slashes; otherwise return
the (trailing-slash-stripped) path. -/
def abstract_path (full_path table_location : PyStr) : PyStr :=
  let tl := pyRstripSlash table_location
  let fp := pyRstripSlash full_path
  if pyStartswith fp tl then pyLstripSlash (fp.drop tl.length)
  else fp

/-- `PathAbstractor.restore_path` from `bcn/iceberg_utils.py` (lines 44-58):
join the trailing-slash-stripped new location and the leading-slash-stripped
relative path with exactly one slash. -/
def restore_path (relative_path new_table_location : PyStr) : PyStr :=
  pyRstripSlash new_table_location ++ '/' :: pyLstripSlash relative_path

/-- `PathAbstractor.resolve_path` from `bcn/iceberg_utils.py` (lines 60-83). -/
def resolve_path (path base_location : PyStr) : PyStr :=
  if pyStartswith path (pstr "s3a://") then pstr "s3://" ++ path.drop 6
  else if pyStartswith path (pstr "s3://") then path
  else pyRstripSlash base_location ++ '/' :: pyLstripSlash path

end PathAbstractor

/-! ## Manifest records

Avro manifest records are Python dicts; a manifest-list entry carries a
`manifest_path` key, an individual-manifest entry carries `status` and
`data_file` keys. `Option` fields model possibly-absent dict keys. -/

/-- A bound-map value: raw bytes, represented by their UTF-8 decoding when
they have one (`txt`, also covering values that are already `str`), or an
opaque tag when UTF-8 decoding fails (`bin`). -/
inductive BoundVal where
  | txt (s : PyStr)
  | bin (tag : Nat)
deriving DecidableEq

/-- One entry of a `lower_bounds`/`upper_bounds` map: a field id and an
optional value (`none` models a null/absent value, and the empty `txt []`
models empty bytes — both are falsy in the source's `if value:` test). -/
structure BoundKV where
  key : Int
  value : Option BoundVal
deriving DecidableEq

/-- The `data_file` sub-record of a manifest entry. The four count/size
statistics maps are opaque to the rewriter (it only ever deletes them whole),
so they are modelled as optional opaque tags; the two bound maps are scanned
entry-wise and are modelled in full. -/
structure DataFile where
  file_path : PyStr
  file_size_in_bytes : Int
  column_sizes : Option Nat
  value_counts : Option Nat
  null_value_counts : Option Nat
  nan_value_counts : Option Nat
  lower_bounds : Option (List BoundKV)
  upper_bounds : Option (List BoundKV)
deriving DecidableEq

/-- A manifest record: either a manifest-list entry (has `manifest_path`) or
an individual-manifest entry (`status` per Iceberg: EXISTING=0, ADDED=1,
DELETED=2; `data_file` possibly absent). -/
inductive MRecord where
  | listEntry (manifest_path : PyStr)
  | dataEntry (status : Option Nat) (data_file : Option DataFile)
deriving DecidableEq

namespace ManifestRewriter

/-- The bound-map scan of `ManifestRewriter.rewrite_manifest_paths`
(`bcn/manifest_rewriter.py` lines 85-123): a non-falsy value that decodes as
UTF-8 text and starts with `old_location` has that prefix replaced by
`new_location`; all other values are left untouched. -/
def rewriteBound (old_location new_location : PyStr) (b : BoundKV) : BoundKV :=
  match b.value with
  | some (.txt s) =>
    if s ≠ [] ∧ pyStartswith s old_location = true then
      { b with value := some (.txt (new_location ++ s.drop old_location.length)) }
    else b
  | _ => b

/-- The `data_file` processing of `ManifestRewriter.rewrite_manifest_paths`
(`bcn/manifest_rewriter.py` lines 60-123): rewrite `file_path` when it carries
the `old_location` prefix, and — only inside that branch — when the
prefix-stripped name is a key of `deleted_files_sizes`, correct
`file_size_in_bytes` and pop the six statistics fields; afterwards scan
whichever bound maps remain. (The source skips `None`/empty bound maps; since
mapping over an empty list is the identity, that test is behaviourally
redundant and is not modelled.) -/
def rewriteDataFile (old_location new_location : PyStr)
    (deleted_files_sizes : List (PyStr × Int)) (df : DataFile) : DataFile :=
  let df1 :=
    if df.file_path ≠ [] ∧ pyStartswith df.file_path old_location = true then
      let new_path := new_location ++ df.file_path.drop old_location.length
      let name_without := df.file_path.drop (old_location.length + 1)
      match deleted_files_sizes.lookup name_without with
      | some sz =>
        { df with
          file_path := new_path
          file_size_in_bytes := sz
          column_sizes := none
          value_counts := none
          null_value_counts := none
          lower_bounds := none
          upper_bounds := none
          nan_value_counts := none }
      | none => { df with file_path := new_path }
    else df
  let df2 :=
    match df1.lower_bounds with
    | some bs => { df1 with lower_bounds := some (bs.map (rewriteBound old_location new_location)) }
    | none => df1
  match df2.upper_bounds with
  | some bs => { df2 with upper_bounds := some (bs.map (rewriteBound old_location new_location)) }
  | none => df2

/-- Per-record dispatch of `ManifestRewriter.rewrite_manifest_paths`
(`bcn/manifest_rewriter.py` lines 49-123): manifest-list entries get their
`manifest_path` prefix-rewritten; entries without a `data_file` are untouched
(the source mutates a fresh empty dict); others go through `rewriteDataFile`. -/
def rewriteRecord (old_location new_location : PyStr)
    (deleted_files_sizes : List (PyStr × Int)) : MRecord → MRecord
  | .listEntry mp =>
    .listEntry (if mp ≠ [] ∧ pyStartswith mp old_location = true
      then new_location ++ mp.drop old_location.length else mp)
  | .dataEntry status none => .dataEntry status none
  | .dataEntry status (some df) =>
    .dataEntry status (some (rewriteDataFile old_location new_location deleted_files_sizes df))

/-- `ManifestRewriter.rewrite_manifest_paths` at record level: every decoded
record is processed in place, so the output records are the pointwise image.
(The source's unchanged-content shortcut returns the original bytes, whose
decoded records coincide with this image.) -/
def rewrite_manifest_paths (records : List MRecord)
    (old_location new_location : PyStr)
    (deleted_files_sizes : List (PyStr × Int)) : List MRecord :=
  records.map (rewriteRecord old_location new_location deleted_files_sizes)

end ManifestRewriter

/-- Concrete record for the claim-C4 counterexample: a data file whose
relative name `f1.parquet` is listed in the size-correction map but whose
`file_path` does not carry the old-location prefix. -/
def c4CexDataFile : DataFile :=
  { file_path := pstr "s3://other/f1.parquet"
    file_size_in_bytes := 10
    column_sizes := some 3
    value_counts := some 3
    null_value_counts := some 3
    nan_value_counts := some 3
    lower_bounds := some [⟨134, some (.txt (pstr "s3://other/f1.parquet"))⟩]
    upper_bounds := none }

/-- Concrete record for the claim-C4 witness: a data file under the old
location whose relative name `f2.parquet` is in the size-correction map. -/
def c4WitnessDataFile : DataFile :=
  { file_path := pstr "s3://old/f2.parquet"
    file_size_in_bytes := 10
    column_sizes := some 1
    value_counts := some 1
    null_value_counts := some 1
    nan_value_counts := some 1
    lower_bounds := some [⟨134, some (.txt (pstr "s3://old/f2.parquet"))⟩]
    upper_bounds := some [⟨134, some (.bin 7)⟩] }

/-! ## The manifest file handler (S3-facing paths)

The S3 blob store is modelled as a partial map from full S3 URIs to decoded
manifest records; `none` models a read error or empty content (both of which
make `read_manifest_from_s3` return `None` in the source). -/

namespace ManifestFileHandler

/-- `ManifestFileHandler.read_manifest_from_s3` from `bcn/iceberg_utils.py`
(lines 259-296): resolve a relative manifest path against the table location,
then read and decode it from the store. -/
def read_manifest_from_s3 (store : PyStr → Option (List MRecord))
    (manifest_path table_location : PyStr) : Option (List MRecord) :=
  let full_path :=
    if pyStartswith manifest_path (pstr "s3://") = false ∧
        pyStartswith manifest_path (pstr "s3a://") = false then
      PathAbstractor.resolve_path manifest_path table_location
    else manifest_path
  store full_path

/-- `ManifestFileHandler.abstract_manifest_paths_avro` from
`bcn/iceberg_utils.py` (lines 208-230). -/
def abstract_manifest_paths_avro (entries : List MRecord) (table_location : PyStr) :
    List MRecord :=
  entries.map fun entry =>
    match entry with
    | .listEntry mp => .listEntry (PathAbstractor.abstract_path mp table_location)
    | e => e

/-- `ManifestFileHandler.restore_manifest_paths` from `bcn/iceberg_utils.py`
(lines 184-206). -/
def restore_manifest_paths (entries : List MRecord) (new_table_location : PyStr) :
    List MRecord :=
  entries.map fun entry =>
    match entry with
    | .listEntry mp => .listEntry (PathAbstractor.restore_path mp new_table_location)
    | e => e

/-- `ManifestFileHandler.abstract_manifest_data_paths_avro` from
`bcn/iceberg_utils.py` (lines 346-368). -/
def abstract_manifest_data_paths_avro (entries : List MRecord) (table_location : PyStr) :
    List MRecord :=
  entries.map fun entry =>
    match entry with
    | .dataEntry st (some df) =>
      .dataEntry st (some { df with file_path := PathAbstractor.abstract_path df.file_path table_location })
    | e => e

/-- `ManifestFileHandler.restore_manifest_data_paths` from
`bcn/iceberg_utils.py` (lines 322-344). -/
def restore_manifest_data_paths (entries : List MRecord) (new_table_location : PyStr) :
    List MRecord :=
  entries.map fun entry =>
    match entry with
    | .dataEntry st (some df) =>
      .dataEntry st (some { df with file_path := PathAbstractor.restore_path df.file_path new_table_location })
    | e => e

end ManifestFileHandler

/-! ## The PIT repository (`BackupRepository` in `bcn/backup.py`)

The persisted `index.json` blob for one backup name is modelled as
`Option RepoIndex` (`none`: the blob is absent or unreadable). -/

/-- One entry of the repository index (`bcn/backup.py` lines 150-158). -/
structure PitEntry where
  pit_id : PyStr
  created_at : Nat
  parent_pit_id : Option PyStr
deriving DecidableEq

/-- The repository index (`bcn/backup.py` lines 47-81). -/
structure RepoIndex where
  backup_name : PyStr
  pits : List PitEntry
deriving DecidableEq

namespace BackupRepository

/-- `BackupRepository.get_or_create_index` (`bcn/backup.py` lines 47-81):
return the stored index, or a fresh empty one when it is absent/unreadable. -/
def get_or_create_index (backup_name : PyStr) (stored : Option RepoIndex) : RepoIndex :=
  match stored with
  | some index => index
  | none => { backup_name := backup_name, pits := [] }

/-- `BackupRepository.get_last_pit` (`bcn/backup.py` lines 83-96): the
`pit_id` of the last index entry, or `None` when there are no PITs. -/
def get_last_pit (backup_name : PyStr) (stored : Option RepoIndex) : Option PyStr :=
  ((get_or_create_index backup_name stored).pits.getLast?).map (fun e => e.pit_id)

/-- `BackupRepository.update_index` (`bcn/backup.py` lines 140-171):
read-modify-write append of a new PIT entry. -/
def update_index (backup_name : PyStr) (stored : Option RepoIndex)
    (pit_id : PyStr) (created_at : Nat) (parent_pit_id : Option PyStr) : RepoIndex :=
  let index := get_or_create_index backup_name stored
  { index with
    pits := index.pits ++
      [{ pit_id := pit_id, created_at := created_at, parent_pit_id := parent_pit_id }] }

end BackupRepository

/-! ## The backup pipeline (`IcebergBackup` in `bcn/backup.py`) -/

/-- The slice of the PIT manifest dictionary that
`IcebergBackup._upload_backup_to_s3` consumes. -/
structure BackupMeta where
  manifest_lists : List PyStr
  individual_manifests : List PyStr
  data_files : List PyStr
deriving DecidableEq

/-- The S3 client as seen by the backup upload stage: reads return decoded
manifest content (`none` for errors/empty), writes and copies succeed or fail
per key. `copyOk` models `S3Client.copy_object` for a data file's keys. -/
structure S3State where
  readContent : PyStr → Option (List MRecord)
  writeOk : PyStr → Bool
  copyOk : PyStr → Bool

/-- One S3 operation attempted by the upload stage. -/
inductive UploadOp where
  | writeJson (key : PyStr)
  | writeManifest (key : PyStr) (records : List MRecord)
deriving DecidableEq

namespace IcebergBackup

/-- The manifest-copy loops of `IcebergBackup._upload_backup_to_s3`
(`bcn/backup.py` lines 574-612): for each relative path, read the raw Avro
from the source table location and re-upload it unchanged under the backup
prefix; unreadable/empty sources are skipped and write failures are only
warnings. -/
def manifestUploadOps (s3 : S3State) (backup_folder table_location : PyStr)
    (paths : List PyStr) : List UploadOp :=
  paths.flatMap fun relative_path =>
    match s3.readContent (table_location ++ '/' :: relative_path) with
    | some content => [UploadOp.writeManifest (backup_folder ++ relative_path) content]
    | none => []

/-- `IcebergBackup._upload_backup_to_s3` (`bcn/backup.py` lines 531-621):
upload `backup_metadata.json` and `metadata.json` (each fatal on failure),
then best-effort copy the manifest lists and individual manifests. Data files
are not touched (source lines 614-615). Returns the success flag and the
trace of attempted S3 operations. -/
def _upload_backup_to_s3 (s3 : S3State) (backup_name : PyStr)
    (backup_metadata : BackupMeta) (table_location : PyStr) : Bool × List UploadOp :=
  let backup_folder := backup_name ++ pstr "/"
  let metadata_key := backup_folder ++ pstr "backup_metadata.json"
  if s3.writeOk metadata_key = false then (false, [UploadOp.writeJson metadata_key])
  else
    let iceberg_metadata_key := backup_folder ++ pstr "metadata.json"
    if s3.writeOk iceberg_metadata_key = false then
      (false, [UploadOp.writeJson metadata_key, UploadOp.writeJson iceberg_metadata_key])
    else
      (true,
        UploadOp.writeJson metadata_key :: UploadOp.writeJson iceberg_metadata_key ::
          (manifestUploadOps s3 backup_folder table_location backup_metadata.manifest_lists ++
            manifestUploadOps s3 backup_folder table_location backup_metadata.individual_manifests))

/-- `IcebergBackup._collect_data_files` (`bcn/backup.py` lines 475-529):
walk every manifest list, then every referenced manifest, and collect each
entry's `data_file.file_path`; read failures skip the file. The source has
no `status` test anywhere in this traversal. -/
def _collect_data_files (store : PyStr → Option (List MRecord))
    (manifest_list_files : List PyStr) (table_location : PyStr) : List PyStr :=
  manifest_list_files.flatMap fun manifest_list_path =>
    match ManifestFileHandler.read_manifest_from_s3 store manifest_list_path table_location with
    | none => []
    | some manifest_list_entries =>
      manifest_list_entries.flatMap fun entry =>
        match entry with
        | .listEntry manifest_path =>
          if manifest_path = [] then []
          else
            match ManifestFileHandler.read_manifest_from_s3 store manifest_path table_location with
            | none => []
            | some manifest_entries =>
              manifest_entries.filterMap fun m =>
                match m with
                | .dataEntry _ (some data_file) => some data_file.file_path
                | _ => none
        | _ => []

/-- Steps 7 and 11 of `IcebergBackup.create_backup` (`bcn/backup.py` lines
317-354) as one index transition: resolve the parent PIT from the current
index, then append the new PIT entry. -/
def backup_invocation (backup_name : PyStr) (stored : Option RepoIndex)
    (pit_id : PyStr) (created_at : Nat) : RepoIndex :=
  BackupRepository.update_index backup_name stored pit_id created_at
    (BackupRepository.get_last_pit backup_name stored)

/-- `n` sequential backup invocations under one backup name, fed by a list of
generated `(pit_id, created_at)` pairs. -/
def run_backups (backup_name : PyStr) (stored : Option RepoIndex) :
    List (PyStr × Nat) → Option RepoIndex
  | [] => stored
  | (pit_id, t) :: rest =>
    run_backups backup_name (some (backup_invocation backup_name stored pit_id t)) rest

end IcebergBackup

/-- The linear parent-linked chain that `run_backups` is expected to build:
entry `i` carries the `i-1`st `pit_id` as parent (seeded with `parent` for
the first entry). -/
def pitChain (parent : Option PyStr) : List (PyStr × Nat) → List PitEntry
  | [] => []
  | (p, t) :: rest => { pit_id := p, created_at := t, parent_pit_id := parent } :: pitChain (some p) rest

/-! ## Concrete fixtures for claims C1, C2 and C5 -/

/-- A manifest entry whose data file has the given path and status. -/
def c1Entry (path : String) (status : Nat) : MRecord :=
  .dataEntry (some status) (some
    { file_path := pstr path
      file_size_in_bytes := 100
      column_sizes := none
      value_counts := none
      null_value_counts := none
      nan_value_counts := none
      lower_bounds := none
      upper_bounds := none })

/-- The claim-C1 manifest: 3 ADDED (1), 2 EXISTING (0), 2 DELETED (2). -/
def c1ManifestEntries : List MRecord :=
  [c1Entry "s3://b/t/data/f1.parquet" 1,
    c1Entry "s3://b/t/data/f2.parquet" 1,
    c1Entry "s3://b/t/data/f3.parquet" 1,
    c1Entry "s3://b/t/data/f4.parquet" 0,
    c1Entry "s3://b/t/data/f5.parquet" 0,
    c1Entry "s3://b/t/data/f6.parquet" 2,
    c1Entry "s3://b/t/data/f7.parquet" 2]

/-- The claim-C1 source table store: one manifest list referencing one
manifest that holds the seven entries. -/
def c1Store (p : PyStr) : Option (List MRecord) :=
  if p = pstr "s3://b/t/metadata/snap-1.avro" then
    some [.listEntry (pstr "metadata/m-1.avro")]
  else if p = pstr "s3://b/t/metadata/m-1.avro" then some c1ManifestEntries
  else none

/-- The claim-C1 S3 state: reads come from the source table, writes succeed. -/
def c1S3 : S3State :=
  { readContent := c1Store
    writeOk := fun _ => true
    copyOk := fun _ => true }

/-- The claim-C1 PIT manifest slice fed to the upload stage. -/
def c1Meta : BackupMeta :=
  { manifest_lists := [pstr "metadata/snap-1.avro"]
    individual_manifests := [pstr "metadata/m-1.avro"]
    data_files := [] }

/-- Three sequential backup invocations for the claim-C2 witness. -/
def c2Ids : List (PyStr × Nat) :=
  [(pstr "pit-1-a", 1), (pstr "pit-2-b", 2), (pstr "pit-3-c", 3)]

/-- The claim-C5 PIT manifest slice: two data files, no manifests. -/
def c5Meta : BackupMeta :=
  { manifest_lists := []
    individual_manifests := []
    data_files := [pstr "data/f1.parquet", pstr "data/f2.parquet"] }

/-- The claim-C5 S3 state: every write succeeds and every copy fails. -/
def c5S3 : S3State :=
  { readContent := fun _ => none
    writeOk := fun _ => true
    copyOk := fun _ => false }

/-! ## The delete-file rewriter (`bcn/delete_file_rewriter.py`)

A decoded position-delete Parquet table: named columns of cell values. A cell
is a string, a null (`None` from `to_pylist`), or a non-string value. -/

/-- One decoded Parquet cell value. -/
inductive PVal where
  | vstr (s : PyStr)
  | vnull
  | vint (n : Int)
deriving DecidableEq

/-- A decoded columnar file: column names and the columns themselves, in
positional correspondence. -/
structure PTable where
  names : List PyStr
  cols : List (List PVal)
deriving DecidableEq

namespace DeleteFileRewriter

/-- The per-value update of `DeleteFileRewriter.rewrite_delete_file_paths`
(`bcn/delete_file_rewriter.py` lines 64-79): a truthy string starting with
`old_location` has that prefix replaced by `new_location`; every other value
(non-matching string, empty string, null, non-string) passes through. -/
def rewriteDeleteCell (old_location new_location : PyStr) : PVal → PVal
  | .vstr p =>
    if p ≠ [] ∧ pyStartswith p old_location = true then
      .vstr (new_location ++ p.drop old_location.length)
    else .vstr p
  | v => v

/-- `DeleteFileRewriter.rewrite_delete_file_paths`
(`bcn/delete_file_rewriter.py` lines 50-114) at decoded-table level: if the
table has no `file_path` column, return the input unchanged; otherwise
rebuild the table with the (first) `file_path` column rewritten cell-wise and
all other columns passed through. (A `names`/`cols` length mismatch cannot
come out of the Parquet decoder; such a table is returned unchanged.) -/
def rewrite_delete_file_paths (t : PTable) (old_location new_location : PyStr) : PTable :=
  if (pstr "file_path") ∈ t.names then
    let file_path_idx := t.names.indexOf (pstr "file_path")
    match t.cols[file_path_idx]? with
    | some col =>
      { t with
        cols := t.cols.set file_path_idx (col.map (rewriteDeleteCell old_location new_location)) }
    | none => t
  else t

end DeleteFileRewriter

/-- Concrete position-delete table for the claim-C9 witness: a `file_path`
column with one in-root path, one foreign path and one null, plus a `pos`
column. -/
def c9Table : PTable :=
  { names := [pstr "file_path", pstr "pos"]
    cols := [[.vstr (pstr "s3://b/t/data/f1.parquet"), .vstr (pstr "s3://x/q.parquet"), .vnull],
      [.vint 3, .vint 7, .vint 9]] }

/-! ## The restore pipeline (`IcebergRestore` in `bcn/restore.py`)

Collaborator outcomes are modelled explicitly: the backup-metadata download,
per-path manifest reads, per-file data copies, the restored-metadata upload,
and catalog registration. -/

/-- The slice of `backup_metadata.json` that `restore_backup` consumes. -/
structure RestoreBackupMeta where
  original_location : PyStr
  abstracted_snapshots : List PyStr
  metadata_log : List PyStr
  manifest_lists : List PyStr
  individual_manifests : List PyStr
  data_files : List PyStr
deriving DecidableEq

/-- The restore pipeline's environment of collaborator outcomes.
`manifestWriteOk` (step 6) is carried for completeness: the source logs those
failures as warnings without affecting the result, so `restore_backup` never
reads it. -/
structure RestoreEnv where
  backupMeta : Option RestoreBackupMeta
  readManifest : PyStr → Option (List MRecord)
  copyOk : PyStr → Bool
  writeMetadataOk : Bool
  manifestWriteOk : PyStr → Bool
  registerOk : Bool

namespace IcebergRestore

/-- `IcebergRestore._copy_data_files` (`bcn/restore.py` lines 353-409): copy
every listed data file, collecting failures, and raise a `RuntimeError`
carrying the failed paths when any copy failed. -/
def _copy_data_files (copyOk : PyStr → Bool) (data_files : List PyStr) :
    Except (List PyStr) Unit :=
  let failed_files := data_files.filter fun f => !copyOk f
  if failed_files.isEmpty then Except.ok () else Except.error failed_files

/-- `IcebergRestore._restore_manifest_file` (`bcn/restore.py` lines 283-351):
read a manifest from the backup, then abstract its paths against the original
location and restore them against the target location — entry kind decided by
the first record. Returns `none` on read failure. -/
def _restore_manifest_file (env : RestoreEnv)
    (original_location target_location relative_path : PyStr) : Option (List MRecord) :=
  match env.readManifest relative_path with
  | none => none
  | some entries =>
    match entries.head? with
    | some (.listEntry _) =>
      some (ManifestFileHandler.restore_manifest_paths
        (ManifestFileHandler.abstract_manifest_paths_avro entries original_location)
        target_location)
    | some (.dataEntry _ (some _)) =>
      some (ManifestFileHandler.restore_manifest_data_paths
        (ManifestFileHandler.abstract_manifest_data_paths_avro entries original_location)
        target_location)
    | _ => some entries

/-- `IcebergRestore.restore_backup` (`bcn/restore.py` lines 83-248) control
flow: fail when the backup metadata cannot be downloaded; restore metadata
paths (pure); best-effort restore of manifests (read failures skipped); copy
data files, where the raised `RuntimeError` unwinds to the top-level handler
and yields failure; upload the restored metadata (fatal); upload manifests
best-effort; register the table (fatal). -/
def restore_backup (env : RestoreEnv) (target_location : PyStr) : Bool :=
  match env.backupMeta with
  | none => false
  | some bm =>
    let _restored_snapshots := bm.abstracted_snapshots.map
      (fun p => PathAbstractor.restore_path p target_location)
    let _restored_log := bm.metadata_log.map
      (fun p => PathAbstractor.restore_path p target_location)
    let _restored_manifest_lists := bm.manifest_lists.filterMap fun rel =>
      (_restore_manifest_file env bm.original_location target_location rel).map
        (fun es => (rel, es))
    let _restored_individual_manifests := bm.individual_manifests.filterMap fun rel =>
      (_restore_manifest_file env bm.original_location target_location rel).map
        (fun es => (rel, es))
    match _copy_data_files env.copyOk bm.data_files with
    | .error _ => false
    | .ok _ =>
      if env.writeMetadataOk = false then false
      else if env.registerOk then true else false

end IcebergRestore

/-- Concrete backup metadata for the claim-C6 witness: two data files. -/
def c6Meta : RestoreBackupMeta :=
  { original_location := pstr "s3://b/t"
    abstracted_snapshots := [pstr "metadata/snap-1.avro"]
    metadata_log := []
    manifest_lists := [pstr "metadata/snap-1.avro"]
    individual_manifests := [pstr "metadata/m-1.avro"]
    data_files := [pstr "data/f1.parquet", pstr "data/f2.parquet"] }

/-- Claim-C6 witness environment: everything succeeds except the copy of the
second data file. -/
def c6Env : RestoreEnv :=
  { backupMeta := some c6Meta
    readManifest := fun _ => none
    copyOk := fun f => if f = pstr "data/f2.parquet" then false else true
    writeMetadataOk := true
    manifestWriteOk := fun _ => true
    registerOk := true }

/-! ## Basic lemmas about the slash-stripping helpers -/

theorem pyRstripSlash_append_slash (s : PyStr) :
    pyRstripSlash (s ++ ['/']) = pyRstripSlash s := by
  simp [pyRstripSlash, List.dropWhile]

theorem head?_dropWhileSlash_ne (l : PyStr) (a : Char)
    (h : (l.dropWhile (fun c => c = '/')).head? = some a) : a ≠ '/' := by
  induction l with
  | nil => simp [List.dropWhile] at h
  | cons c t ih =>
    by_cases hc : c = '/'
    · rw [List.dropWhile_cons_of_pos (by simp [hc])] at h
      exact ih h
    · rw [List.dropWhile_cons_of_neg (by simp [hc])] at h
      simp at h
      rw [← h]
      exact hc

theorem pyRstripSlash_getLast?_ne (s : PyStr) :
    (pyRstripSlash s).getLast? ≠ some '/' := by
  intro h
  rw [pyRstripSlash, List.getLast?_reverse] at h
  exact head?_dropWhileSlash_ne s.reverse '/' h rfl

theorem pyRstripSlash_of_getLast?_ne (s : PyStr) (h : s.getLast? ≠ some '/') :
    pyRstripSlash s = s := by
  rw [pyRstripSlash]
  cases hs : s.reverse with
  | nil =>
    have : s = [] := by simpa using congrArg List.reverse hs
    simp [this]
  | cons c t =>
    have hc : c ≠ '/' := by
      intro hc
      apply h
      rw [← List.head?_reverse, hs, hc]
      rfl
    rw [List.dropWhile_cons_of_neg (by simp [hc]), ← hs, List.reverse_reverse]

theorem pyRstripSlash_idem (s : PyStr) :
    pyRstripSlash (pyRstripSlash s) = pyRstripSlash s :=
  pyRstripSlash_of_getLast?_ne _ (pyRstripSlash_getLast?_ne s)

theorem pyRstripSlash_prefix_self (s : PyStr) : pyRstripSlash s <+: s := by
  refine ⟨(s.reverse.takeWhile (fun c => c = '/')).reverse, ?_⟩
  rw [pyRstripSlash, ← List.reverse_append, List.takeWhile_append_dropWhile,
    List.reverse_reverse]

theorem pyStartswith_eq_true_iff (s pre : PyStr) :
    pyStartswith s pre = true ↔ pre <+: s := by
  rw [pyStartswith]
  exact List.isPrefixOf_iff_prefix

theorem pyLstripSlash_of_head?_ne (s : PyStr) (h : s.head? ≠ some '/') :
    pyLstripSlash s = s := by
  cases s with
  | nil => rfl
  | cons a t =>
    have ha : a ≠ '/' := by
      intro hc
      exact h (by rw [hc]; rfl)
    rw [pyLstripSlash, List.dropWhile_cons_of_neg (by simp [ha])]

/-! ## Claims C3, C8, C10: the path codec -/

/-- Claim C3, counterexample: the round trip fails for a path `p` that starts
with the root `r` but equals it — `restore_path (abstract_path p r) r`
appends a trailing slash that `p` did not have. -/
theorem abstract_restore_roundtrip_cex :
    pyStartswith (pstr "s3://b/t") (pstr "s3://b/t") = true ∧
      PathAbstractor.restore_path
          (PathAbstractor.abstract_path (pstr "s3://b/t") (pstr "s3://b/t"))
          (pstr "s3://b/t") ≠ pstr "s3://b/t" := by
  decide

/-- Claim C3, amended: for every path `p` of the form `r' ++ "/" ++ s` where
`r'` is the root `r` with trailing slashes removed and the suffix `s` neither
starts nor ends with a slash, `restore_path (abstract_path p r) r = p`.
(The unrestricted claim fails when `p` equals the root, carries a trailing
slash, has extra slashes after the root, or continues the root without a
slash separator.) -/
theorem abstract_restore_roundtrip (p r s : PyStr)
    (hp : p = pyRstripSlash r ++ '/' :: s)
    (hhead : s.head? ≠ some '/')
    (hlast : s.getLast? ≠ some '/') :
    PathAbstractor.restore_path (PathAbstractor.abstract_path p r) r = p := by
  subst hp
  have hrlast : (pyRstripSlash r).getLast? ≠ some '/' := pyRstripSlash_getLast?_ne r
  rw [PathAbstractor.abstract_path]
  cases s with
  | nil =>
    have h1 : pyRstripSlash (pyRstripSlash r ++ '/' :: ([] : PyStr)) = pyRstripSlash r := by
      rw [show pyRstripSlash r ++ '/' :: ([] : PyStr) = pyRstripSlash r ++ ['/'] from rfl,
        pyRstripSlash_append_slash, pyRstripSlash_idem]
    simp only [h1]
    rw [if_pos (by rw [pyStartswith_eq_true_iff])]
    rw [List.drop_length]
    rfl
  | cons a t =>
    have ha : a ≠ '/' := by
      intro hc
      exact hhead (by rw [hc]; rfl)
    have h1 : pyRstripSlash (pyRstripSlash r ++ '/' :: a :: t) = pyRstripSlash r ++ '/' :: a :: t := by
      apply pyRstripSlash_of_getLast?_ne
      rw [List.getLast?_append_cons, List.getLast?_cons_cons]
      exact hlast
    simp only [h1]
    rw [if_pos (by rw [pyStartswith_eq_true_iff]; exact ⟨'/' :: a :: t, rfl⟩)]
    rw [List.drop_left]
    rw [PathAbstractor.restore_path]
    have h2 : pyLstripSlash ('/' :: a :: t) = a :: t := by
      rw [pyLstripSlash, List.dropWhile_cons_of_pos (by simp)]
      have := pyLstripSlash_of_head?_ne (a :: t) (by simpa using ha)
      rw [pyLstripSlash] at this
      exact this
    rw [h2, pyLstripSlash_of_head?_ne (a :: t) (by simpa using ha)]

/-- Witness for the amended claim C3 at a concrete path under a concrete root. -/
theorem abstract_restore_roundtrip_witness :
    PathAbstractor.restore_path
        (PathAbstractor.abstract_path (pstr "s3://b/t/data/f1.parquet") (pstr "s3://b/t/"))
        (pstr "s3://b/t/") = pstr "s3://b/t/data/f1.parquet" :=
  abstract_restore_roundtrip _ _ (pstr "data/f1.parquet") (by decide) (by decide) (by decide)

/-- Claim C8, counterexample: a path that does not start with the table root
is *not* always returned unchanged — its trailing slashes are stripped. -/
theorem abstract_path_outside_root_cex :
    pyStartswith (pstr "s3://other/x/") (pyRstripSlash (pstr "s3://b/t")) = false ∧
      PathAbstractor.abstract_path (pstr "s3://other/x/") (pstr "s3://b/t")
        = pstr "s3://other/x" ∧
      PathAbstractor.abstract_path (pstr "s3://other/x/") (pstr "s3://b/t")
        ≠ pstr "s3://other/x/" := by
  decide

/-- Claim C8, amended: for every `full_path` that does not start with the
trailing-slash-normalized `table_root`, `abstract_path` returns `full_path`
with its trailing slashes stripped; in particular it returns `full_path`
unchanged whenever `full_path` does not end with a slash. -/
theorem abstract_path_outside_root (full_path table_root : PyStr)
    (h : pyStartswith full_path (pyRstripSlash table_root) = false) :
    PathAbstractor.abstract_path full_path table_root = pyRstripSlash full_path ∧
      (full_path.getLast? ≠ some '/' →
        PathAbstractor.abstract_path full_path table_root = full_path) := by
  have hbranch : pyStartswith (pyRstripSlash full_path) (pyRstripSlash table_root) = false := by
    by_contra hb
    have hb' : pyStartswith (pyRstripSlash full_path) (pyRstripSlash table_root) = true := by
      revert hb
      cases pyStartswith (pyRstripSlash full_path) (pyRstripSlash table_root) <;> simp
    rw [pyStartswith_eq_true_iff] at hb'
    have : pyRstripSlash table_root <+: full_path :=
      hb'.trans (pyRstripSlash_prefix_self full_path)
    rw [← pyStartswith_eq_true_iff] at this
    rw [h] at this
    exact Bool.noConfusion this
  constructor
  · rw [PathAbstractor.abstract_path]
    simp only [hbranch]
    rfl
  · intro hne
    rw [PathAbstractor.abstract_path]
    simp only [hbranch]
    simpa using pyRstripSlash_of_getLast?_ne full_path hne

/-- Witness for the amended claim C8 at a concrete non-matching path. -/
theorem abstract_path_outside_root_witness :
    PathAbstractor.abstract_path (pstr "s3://other/x") (pstr "s3://b/t")
      = pyRstripSlash (pstr "s3://other/x") ∧
      PathAbstractor.abstract_path (pstr "s3://other/x") (pstr "s3://b/t")
        = pstr "s3://other/x" :=
  ⟨(abstract_path_outside_root (pstr "s3://other/x") (pstr "s3://b/t") (by decide)).1,
    (abstract_path_outside_root (pstr "s3://other/x") (pstr "s3://b/t") (by decide)).2 (by decide)⟩

/-- Claim C10: `abstract_path` matches the root prefix textually, not per
path component: for `full_path = s3://b/db/t2/f` and `table_root = s3://b/db/t`
the prefix is stripped anyway, yielding `2/f`, which is neither the original
path nor a path that restores to the original under the root. -/
theorem abstract_path_textual_prefix_match :
    PathAbstractor.abstract_path (pstr "s3://b/db/t2/f") (pstr "s3://b/db/t") = pstr "2/f" ∧
      pstr "2/f" ≠ pstr "s3://b/db/t2/f" ∧
      PathAbstractor.restore_path (pstr "2/f") (pstr "s3://b/db/t")
        ≠ pstr "s3://b/db/t2/f" := by
  decide

/-! ## Claim C4: statistics invalidation in the manifest rewriter -/

/-- Claim C4, counterexample: a record whose data file's relative name
`f1.parquet` is in the size-correction map but whose `file_path` does not
carry the `old_location` prefix passes through `rewrite_manifest_paths`
completely unchanged — its `file_size_in_bytes` stays 10 and its statistics
fields survive, although the claim requires the corrected size 99 and the
statistics removed for every record whose identity is in the map. -/
theorem rewrite_stats_invalidation_cex :
    (List.lookup (pstr "f1.parquet") [(pstr "f1.parquet", (99 : Int))]).isSome = true ∧
      ManifestRewriter.rewrite_manifest_paths
          [.dataEntry (some 1) (some c4CexDataFile)]
          (pstr "s3://old") (pstr "s3://new")
          [(pstr "f1.parquet", (99 : Int))]
        = [.dataEntry (some 1) (some c4CexDataFile)] ∧
      c4CexDataFile.file_size_in_bytes = 10 ∧
      c4CexDataFile.column_sizes = some 3 := by
  decide

/-- Claim C4, amended: the statistics invalidation is applied exactly to
records whose `file_path` carries the `old_location` prefix (i.e., records
that are path-rewritten) and whose prefix-stripped name is a key of the
size-correction map; such a record's output has the corrected
`file_size_in_bytes` and its `column_sizes`, `value_counts`,
`null_value_counts`, `nan_value_counts`, `lower_bounds` and `upper_bounds`
fields removed. -/
theorem rewrite_stats_invalidation (st : Option Nat) (df : DataFile)
    (old_location new_location : PyStr) (deleted_files_sizes : List (PyStr × Int)) (sz : Int)
    (hfp : df.file_path ≠ [])
    (hpre : pyStartswith df.file_path old_location = true)
    (hlk : deleted_files_sizes.lookup (df.file_path.drop (old_location.length + 1)) = some sz) :
    ManifestRewriter.rewriteRecord old_location new_location deleted_files_sizes
        (.dataEntry st (some df))
      = .dataEntry st (some
          { df with
            file_path := new_location ++ df.file_path.drop old_location.length
            file_size_in_bytes := sz
            column_sizes := none
            value_counts := none
            null_value_counts := none
            nan_value_counts := none
            lower_bounds := none
            upper_bounds := none }) := by
  rw [ManifestRewriter.rewriteRecord, ManifestRewriter.rewriteDataFile]
  simp only [if_pos (And.intro hfp hpre), hlk]

/-- Witness for the amended claim C4 at a concrete rewritten record. -/
theorem rewrite_stats_invalidation_witness :
    ManifestRewriter.rewriteRecord (pstr "s3://old") (pstr "s3://new")
        [(pstr "f2.parquet", (55 : Int))]
        (.dataEntry (some 0) (some c4WitnessDataFile))
      = .dataEntry (some 0) (some
          { c4WitnessDataFile with
            file_path := pstr "s3://new" ++ (pstr "s3://old/f2.parquet").drop (pstr "s3://old").length
            file_size_in_bytes := 55
            column_sizes := none
            value_counts := none
            null_value_counts := none
            nan_value_counts := none
            lower_bounds := none
            upper_bounds := none }) :=
  rewrite_stats_invalidation (some 0) c4WitnessDataFile
    (pstr "s3://old") (pstr "s3://new") [(pstr "f2.parquet", (55 : Int))] 55
    (by decide) (by decide) (by decide)

/-! ## Claim C1: deleted-entry handling in backup's data-file collection -/

/-- Claim C1 (the code violates it): over a manifest hierarchy whose single
manifest holds 3 ADDED, 2 EXISTING and 2 DELETED entries,
`_collect_data_files` returns all seven file paths — the two DELETED
(status 2) entries included — and the upload stage re-uploads the manifest
content unchanged, so the uploaded manifest still carries all seven records
rather than the five non-deleted ones the claim requires. -/
theorem collect_data_files_keeps_deleted :
    IcebergBackup._collect_data_files c1Store
        [pstr "s3://b/t/metadata/snap-1.avro"] (pstr "s3://b/t")
      = [pstr "s3://b/t/data/f1.parquet", pstr "s3://b/t/data/f2.parquet",
          pstr "s3://b/t/data/f3.parquet", pstr "s3://b/t/data/f4.parquet",
          pstr "s3://b/t/data/f5.parquet", pstr "s3://b/t/data/f6.parquet",
          pstr "s3://b/t/data/f7.parquet"] ∧
      (c1ManifestEntries.countP fun m =>
        match m with
        | .dataEntry (some 2) _ => true
        | _ => false) = 2 ∧
      (IcebergBackup._upload_backup_to_s3 c1S3 (pstr "nightly") c1Meta (pstr "s3://b/t")).snd
        = [UploadOp.writeJson (pstr "nightly/backup_metadata.json"),
            UploadOp.writeJson (pstr "nightly/metadata.json"),
            UploadOp.writeManifest (pstr "nightly/metadata/snap-1.avro")
              [.listEntry (pstr "metadata/m-1.avro")],
            UploadOp.writeManifest (pstr "nightly/metadata/m-1.avro") c1ManifestEntries] := by
  decide

/-! ## Claim C2: linearity of the PIT chain -/

theorem backup_invocation_some (backup_name : PyStr) (index : RepoIndex)
    (p : PyStr) (t : Nat) :
    IcebergBackup.backup_invocation backup_name (some index) p t
      = { index with
          pits := index.pits ++
            [{ pit_id := p, created_at := t,
               parent_pit_id := (index.pits.getLast?).map (fun e => e.pit_id) }] } := rfl

theorem run_backups_some (backup_name : PyStr) (ids : List (PyStr × Nat)) :
    ∀ index : RepoIndex,
      IcebergBackup.run_backups backup_name (some index) ids
        = some { index with
            pits := index.pits ++
              pitChain ((index.pits.getLast?).map (fun e => e.pit_id)) ids } := by
  induction ids with
  | nil =>
    intro index
    simp [IcebergBackup.run_backups, pitChain]
  | cons pt rest ih =>
    obtain ⟨p, t⟩ := pt
    intro index
    rw [IcebergBackup.run_backups, backup_invocation_some, ih]
    simp [pitChain, List.getLast?_append_cons, List.append_assoc]

theorem run_backups_from_empty (backup_name : PyStr) (ids : List (PyStr × Nat)) :
    BackupRepository.get_or_create_index backup_name
        (IcebergBackup.run_backups backup_name none ids)
      = { backup_name := backup_name, pits := pitChain none ids } := by
  cases ids with
  | nil => rfl
  | cons pt rest =>
    obtain ⟨p, t⟩ := pt
    rw [IcebergBackup.run_backups]
    rw [show IcebergBackup.backup_invocation backup_name none p t
        = { backup_name := backup_name,
            pits := [{ pit_id := p, created_at := t, parent_pit_id := none }] } from rfl]
    rw [run_backups_some]
    simp [BackupRepository.get_or_create_index, pitChain]

theorem pitChain_length (parent : Option PyStr) (ids : List (PyStr × Nat)) :
    (pitChain parent ids).length = ids.length := by
  induction ids generalizing parent with
  | nil => rfl
  | cons pt rest ih =>
    obtain ⟨p, t⟩ := pt
    simp [pitChain, ih]

theorem pitChain_map_pit_id (parent : Option PyStr) (ids : List (PyStr × Nat)) :
    (pitChain parent ids).map (fun e => e.pit_id) = ids.map Prod.fst := by
  induction ids generalizing parent with
  | nil => rfl
  | cons pt rest ih =>
    obtain ⟨p, t⟩ := pt
    simp [pitChain, ih]

theorem pitChain_head_parent (parent : Option PyStr) (ids : List (PyStr × Nat))
    (e : PitEntry) (h : (pitChain parent ids)[0]? = some e) :
    e.parent_pit_id = parent := by
  cases ids with
  | nil => simp [pitChain] at h
  | cons pt rest =>
    obtain ⟨p, t⟩ := pt
    simp [pitChain] at h
    rw [← h]

theorem pitChain_link (ids : List (PyStr × Nat)) :
    ∀ (parent : Option PyStr) (i : Nat) (e e' : PitEntry),
      (pitChain parent ids)[i]? = some e → (pitChain parent ids)[i + 1]? = some e' →
      e'.parent_pit_id = some e.pit_id := by
  induction ids with
  | nil =>
    intro parent i e e' h1 _
    simp [pitChain] at h1
  | cons pt rest ih =>
    obtain ⟨p, t⟩ := pt
    intro parent i e e' h1 h2
    cases i with
    | zero =>
      simp [pitChain] at h1 h2
      have hp := pitChain_head_parent (some p) rest e' h2
      rw [hp, ← h1]
    | succ j =>
      simp [pitChain] at h1 h2
      exact ih (some p) j e e' h1 h2

/-- Claim C2: after `n` sequential backup invocations under one backup name
starting from no index, the index holds exactly the `n` generated PIT ids in
creation order, the first entry's parent is null, every later entry's parent
is the previous entry's `pit_id`, and `get_last_pit` returns the `n`-th
`pit_id`. -/
theorem backup_chain_linearity (backup_name : PyStr) (ids : List (PyStr × Nat)) :
    ((BackupRepository.get_or_create_index backup_name
        (IcebergBackup.run_backups backup_name none ids)).pits.map (fun e => e.pit_id)
      = ids.map Prod.fst)
    ∧ (BackupRepository.get_or_create_index backup_name
        (IcebergBackup.run_backups backup_name none ids)).pits.length = ids.length
    ∧ (∀ e, (BackupRepository.get_or_create_index backup_name
        (IcebergBackup.run_backups backup_name none ids)).pits[0]? = some e →
        e.parent_pit_id = none)
    ∧ (∀ i e e', (BackupRepository.get_or_create_index backup_name
        (IcebergBackup.run_backups backup_name none ids)).pits[i]? = some e →
        (BackupRepository.get_or_create_index backup_name
          (IcebergBackup.run_backups backup_name none ids)).pits[i + 1]? = some e' →
        e'.parent_pit_id = some e.pit_id)
    ∧ BackupRepository.get_last_pit backup_name
        (IcebergBackup.run_backups backup_name none ids)
      = (ids.map Prod.fst).getLast? := by
  have hidx := run_backups_from_empty backup_name ids
  refine ⟨?_, ?_, ?_, ?_, ?_⟩
  · rw [hidx]
    exact pitChain_map_pit_id none ids
  · rw [hidx]
    exact pitChain_length none ids
  · intro e h
    rw [hidx] at h
    exact pitChain_head_parent none ids e h
  · intro i e e' h1 h2
    rw [hidx] at h1 h2
    exact pitChain_link ids none i e e' h1 h2
  · rw [BackupRepository.get_last_pit, hidx]
    rw [← pitChain_map_pit_id none ids, List.getLast?_map]

/-- Witness for claim C2: three concrete sequential backups produce a chain
whose second entry's parent is the first entry's `pit_id`. -/
theorem backup_chain_linearity_witness :
    ((BackupRepository.get_or_create_index (pstr "nightly")
        (IcebergBackup.run_backups (pstr "nightly") none c2Ids)).pits[0]?
      = some { pit_id := pstr "pit-1-a", created_at := 1, parent_pit_id := none })
    ∧ ((BackupRepository.get_or_create_index (pstr "nightly")
        (IcebergBackup.run_backups (pstr "nightly") none c2Ids)).pits[1]?
      = some { pit_id := pstr "pit-2-b", created_at := 2,
               parent_pit_id := some (pstr "pit-1-a") })
    ∧ PitEntry.parent_pit_id
        { pit_id := pstr "pit-2-b", created_at := 2, parent_pit_id := some (pstr "pit-1-a") }
      = some (PitEntry.pit_id { pit_id := pstr "pit-1-a", created_at := 1, parent_pit_id := none }) :=
  ⟨by decide, by decide,
    (backup_chain_linearity (pstr "nightly") c2Ids).2.2.2.1 0
      { pit_id := pstr "pit-1-a", created_at := 1, parent_pit_id := none }
      { pit_id := pstr "pit-2-b", created_at := 2, parent_pit_id := some (pstr "pit-1-a") }
      (by decide) (by decide)⟩

/-! ## Claim C5: data files during backup's artifact upload -/

/-- Claim C5, counterexample: with two data files listed and a copy
collaborator that fails every copy (so that, were copies attempted, all of
them — more than half — would fail), the upload stage still succeeds: the
backup is not marked failed, because no data-file copy is ever attempted. -/
theorem upload_ignores_failed_copies_cex :
    c5Meta.data_files.length = 2 ∧
      c5S3.copyOk (pstr "data/f1.parquet") = false ∧
      c5S3.copyOk (pstr "data/f2.parquet") = false ∧
      (IcebergBackup._upload_backup_to_s3 c5S3 (pstr "nightly") c5Meta (pstr "s3://b/t")).fst
        = true := by
  decide

/-- Claim C5, amended: backup's artifact-upload stage attempts no data-file
copies at all (data files stay at the original table location and are copied
during restore); the stage succeeds exactly when the `backup_metadata.json`
and `metadata.json` uploads succeed, and its entire outcome is independent of
the copy collaborator. -/
theorem upload_success_condition (s3 : S3State) (backup_name : PyStr)
    (backup_metadata : BackupMeta) (table_location : PyStr) :
    ((IcebergBackup._upload_backup_to_s3 s3 backup_name backup_metadata table_location).fst
      = (s3.writeOk (backup_name ++ pstr "/" ++ pstr "backup_metadata.json")
          && s3.writeOk (backup_name ++ pstr "/" ++ pstr "metadata.json")))
    ∧ (∀ copyOk2 : PyStr → Bool,
        IcebergBackup._upload_backup_to_s3
            { readContent := s3.readContent, writeOk := s3.writeOk, copyOk := copyOk2 }
            backup_name backup_metadata table_location
          = IcebergBackup._upload_backup_to_s3 s3 backup_name backup_metadata table_location) := by
  constructor
  · rw [IcebergBackup._upload_backup_to_s3]
    cases h1 : s3.writeOk (backup_name ++ pstr "/" ++ pstr "backup_metadata.json") <;>
      cases h2 : s3.writeOk (backup_name ++ pstr "/" ++ pstr "metadata.json") <;>
        (rw [List.append_assoc] at h1 h2; simp [h1, h2])
  · intro copyOk2
    rfl

/-! ## Claim C9: rewriting position-delete files -/

theorem ne_nil_of_pyStartswith (p pre : PyStr) (h : pyStartswith p pre = true)
    (hpre : pre ≠ []) : p ≠ [] := by
  intro hp
  subst hp
  rw [pyStartswith_eq_true_iff] at h
  exact hpre (List.prefix_nil.mp h)

/-- Claim C9: on a decoded position-delete table, the rewriter returns the
input unchanged when there is no `file_path` column; otherwise it keeps the
column names, passes every other column through unmodified, and maps the
`file_path` column cell-wise — a string with the `old_location` prefix gets
the prefix replaced by `new_location`, while strings without the prefix,
nulls and non-string values pass through unchanged. (The prefix test is
stated for a non-empty `old_location`, which every table location is.) -/
theorem rewrite_delete_file_paths_spec (t : PTable) (old_location new_location : PyStr)
    (hold : old_location ≠ []) :
    ((pstr "file_path") ∉ t.names →
      DeleteFileRewriter.rewrite_delete_file_paths t old_location new_location = t)
    ∧ (DeleteFileRewriter.rewrite_delete_file_paths t old_location new_location).names
      = t.names
    ∧ (∀ j, j ≠ t.names.indexOf (pstr "file_path") →
        (DeleteFileRewriter.rewrite_delete_file_paths t old_location new_location).cols[j]?
          = t.cols[j]?)
    ∧ (∀ col, (pstr "file_path") ∈ t.names →
        t.cols[t.names.indexOf (pstr "file_path")]? = some col →
        (DeleteFileRewriter.rewrite_delete_file_paths t old_location new_location).cols[t.names.indexOf (pstr "file_path")]?
          = some (col.map (DeleteFileRewriter.rewriteDeleteCell old_location new_location)))
    ∧ (∀ p, pyStartswith p old_location = true →
        DeleteFileRewriter.rewriteDeleteCell old_location new_location (.vstr p)
          = .vstr (new_location ++ p.drop old_location.length))
    ∧ (∀ p, pyStartswith p old_location = false →
        DeleteFileRewriter.rewriteDeleteCell old_location new_location (.vstr p) = .vstr p)
    ∧ DeleteFileRewriter.rewriteDeleteCell old_location new_location .vnull = .vnull
    ∧ (∀ n, DeleteFileRewriter.rewriteDeleteCell old_location new_location (.vint n)
        = .vint n) := by
  refine ⟨?_, ?_, ?_, ?_, ?_, ?_, rfl, fun n => rfl⟩
  · intro hmem
    rw [DeleteFileRewriter.rewrite_delete_file_paths, if_neg hmem]
  · by_cases hmem : (pstr "file_path") ∈ t.names
    · simp only [DeleteFileRewriter.rewrite_delete_file_paths, if_pos hmem]
      cases h : t.cols[t.names.indexOf (pstr "file_path")]? <;> rfl
    · rw [DeleteFileRewriter.rewrite_delete_file_paths, if_neg hmem]
  · intro j hj
    by_cases hmem : (pstr "file_path") ∈ t.names
    · simp only [DeleteFileRewriter.rewrite_delete_file_paths, if_pos hmem]
      cases h : t.cols[t.names.indexOf (pstr "file_path")]? with
      | none => rfl
      | some col =>
        exact List.getElem?_set_ne (fun he => hj he.symm)
    · rw [DeleteFileRewriter.rewrite_delete_file_paths, if_neg hmem]
  · intro col hmem h
    simp only [DeleteFileRewriter.rewrite_delete_file_paths, if_pos hmem, h]
    have hlt : t.names.indexOf (pstr "file_path") < t.cols.length :=
      (List.getElem?_eq_some_iff.mp h).1
    exact List.getElem?_set_self hlt
  · intro p hp
    rw [DeleteFileRewriter.rewriteDeleteCell,
      if_pos ⟨ne_nil_of_pyStartswith p old_location hp hold, hp⟩]
  · intro p hp
    rw [DeleteFileRewriter.rewriteDeleteCell]
    by_cases hnil : p = []
    · rw [if_neg]
      intro hc
      rw [hp] at hc
      exact Bool.noConfusion hc.2
    · rw [if_neg]
      intro hc
      rw [hp] at hc
      exact Bool.noConfusion hc.2

/-- Witness for claim C9 at a concrete table: the `file_path` column is
rewritten cell-wise and the in-root path gets its prefix replaced. -/
theorem rewrite_delete_file_paths_witness :
    ((DeleteFileRewriter.rewrite_delete_file_paths c9Table
        (pstr "s3://b/t") (pstr "s3://c/u")).cols[c9Table.names.indexOf (pstr "file_path")]?
      = some ([PVal.vstr (pstr "s3://b/t/data/f1.parquet"),
          PVal.vstr (pstr "s3://x/q.parquet"), PVal.vnull].map
            (DeleteFileRewriter.rewriteDeleteCell (pstr "s3://b/t") (pstr "s3://c/u"))))
    ∧ DeleteFileRewriter.rewriteDeleteCell (pstr "s3://b/t") (pstr "s3://c/u")
        (.vstr (pstr "s3://b/t/data/f1.parquet"))
      = .vstr (pstr "s3://c/u" ++ (pstr "s3://b/t/data/f1.parquet").drop (pstr "s3://b/t").length) :=
  ⟨(rewrite_delete_file_paths_spec c9Table (pstr "s3://b/t") (pstr "s3://c/u")
      (by decide)).2.2.2.1
      [PVal.vstr (pstr "s3://b/t/data/f1.parquet"),
        PVal.vstr (pstr "s3://x/q.parquet"), PVal.vnull]
      (by decide) (by decide),
    (rewrite_delete_file_paths_spec c9Table (pstr "s3://b/t") (pstr "s3://c/u")
      (by decide)).2.2.2.2.1 (pstr "s3://b/t/data/f1.parquet") (by decide)⟩

/-! ## Claim C6: restore fails when any data-file copy fails -/

/-- Claim C6: during restore, if any listed data file fails to copy,
`restore_backup` returns failure; conversely, restore never reports success
while some listed data file failed to copy. -/
theorem restore_fails_on_copy_failure (env : RestoreEnv) (target_location : PyStr)
    (bm : RestoreBackupMeta) (hm : env.backupMeta = some bm) :
    ((∃ f, f ∈ bm.data_files ∧ env.copyOk f = false) →
      IcebergRestore.restore_backup env target_location = false)
    ∧ (IcebergRestore.restore_backup env target_location = true →
        ∀ f, f ∈ bm.data_files → env.copyOk f = true) := by
  have key : (∃ f, f ∈ bm.data_files ∧ env.copyOk f = false) →
      IcebergRestore.restore_backup env target_location = false := by
    rintro ⟨f, hf, hc⟩
    simp only [IcebergRestore.restore_backup, hm]
    have hmemf : f ∈ bm.data_files.filter fun g => !env.copyOk g := by
      rw [List.mem_filter]
      exact ⟨hf, by rw [hc]; rfl⟩
    have hcde : IcebergRestore._copy_data_files env.copyOk bm.data_files
        = Except.error (bm.data_files.filter fun g => !env.copyOk g) := by
      rw [IcebergRestore._copy_data_files]
      rw [if_neg]
      intro hemp
      rw [List.isEmpty_iff.mp hemp] at hmemf
      exact (List.not_mem_nil f) hmemf
    rw [hcde]
  refine ⟨key, ?_⟩
  intro htrue f hf
  by_contra hc
  rw [Bool.not_eq_true] at hc
  rw [key ⟨f, hf, hc⟩] at htrue
  exact Bool.noConfusion htrue

/-- Witness for claim C6: in an environment where every collaborator succeeds
except one of the two data-file copies, restore reports failure. -/
theorem restore_fails_on_copy_failure_witness :
    IcebergRestore.restore_backup c6Env (pstr "s3://b/u") = false :=
  (restore_fails_on_copy_failure c6Env (pstr "s3://b/u") c6Meta rfl).1
    ⟨pstr "data/f2.parquet", by decide, by decide⟩
